import Mathlib

/-!
Shallow embedding of the glink gRPC connection manager (connection.go,
connection_manager.go, interceptors.go).

Modelling conventions:
* Time is a Nat counted in nanoseconds, like the Go time.Duration values in
  the source; the Go zero time stored in a freshly allocated Connection is 0,
  and every reading of time.Now() is passed in as a `now` argument.
* A grpc.ClientConn handle is an opaque Nat; the nil pointer is `none`.
* grpc.NewClient is an external collaborator: its outcome is passed in as a
  parameter of type Except Nat Handle (dial error code, or a fresh handle).
* The goroutine spawned by SetConnection (time.Sleep of gracePeriod, then
  oldConn.Close) is reified as a DeferredClose event; runsAt says at which
  instants the sleep can have elapsed so that the close body may run.
* Calling Close on a nil grpc.ClientConn pointer dereferences the nil
  receiver and panics; panicking operations return none.
* The unary interceptor is a deterministic loop over oracles (CallEnv)
  describing the invoker results, the context cancellation observations and
  the TryReconnect results seen by one call.
-/

namespace Glink

def millisecond : Nat := 1000000

def second : Nat := 1000000000

/-- connection.go: gracePeriod = 10 * time.Second. -/
def gracePeriod : Nat := 10 * second

/-- connection_manager.go: minConnectionAge = 15 * time.Second. -/
def minConnectionAge : Nat := 15 * second

abbrev Handle := Nat

/-- connection.go struct Connection (the mutex only guards the fields and has
no observable state of its own). -/
structure Connection where
  id : String
  connection : Option Handle
  lastConnection : Nat
  maxDuration : Nat
  deriving DecidableEq, Repr

/-- connection.go NewConnection: the connection field starts nil; the Go zero
values of lastConnection and maxDuration are time 0 and duration 0. -/
def NewConnection (id : String) : Connection :=
  { id := id, connection := none, lastConnection := 0, maxDuration := 0 }

/-- connection.go Close: calls c.connection.Close() and then clears the
field. When the held pointer is nil, the grpc ClientConn Close method
dereferences its nil receiver and the program panics, modelled as none. -/
def Connection.Close (c : Connection) : Option Connection :=
  match c.connection with
  | none => none
  | some _ => some { c with connection := none }

/-- A deferred close spawned by SetConnection: the superseded handle together
with the earliest instant at which the sleeping goroutine can close it. -/
structure DeferredClose where
  handle : Handle
  scheduledAt : Nat
  deriving DecidableEq, Repr

/-- The goroutine body (time.Sleep of gracePeriod, then close) can only have
run at instants t with scheduledAt ≤ t. -/
def DeferredClose.runsAt (ev : DeferredClose) (t : Nat) : Bool :=
  decide (ev.scheduledAt ≤ t)

/-- connection.go SetConnection: store the old handle, swap in the new one,
stamp lastConnection with the current time and store maxDuration. The old
handle, if any, is not closed here: it is handed to a goroutine that sleeps
for gracePeriod before closing it, returned as a DeferredClose event
scheduled at now + gracePeriod. -/
def Connection.SetConnection (c : Connection) (conn : Handle) (maxDuration now : Nat) :
    Connection × Option DeferredClose :=
  let oldConn := c.connection
  let c1 : Connection :=
    { c with connection := some conn, lastConnection := now, maxDuration := maxDuration }
  match oldConn with
  | some h => (c1, some { handle := h, scheduledAt := now + gracePeriod })
  | none => (c1, none)

/-- connection.go IsExpired: time.Now().Sub(c.lastConnection) >= c.maxDuration. -/
def Connection.IsExpired (c : Connection) (now : Nat) : Bool :=
  decide (now - c.lastConnection ≥ c.maxDuration)

/-- connection_manager.go struct ConnectionManager. The dial option list
(insecure credentials, round robin service config, the interceptor) is fixed
data with no bearing on the state modelled here. -/
structure ConnectionManager where
  connection1 : Connection
  maxConnectionAge : Nat
  maxRetries : Nat
  serviceAddress : String
  deriving DecidableEq, Repr

/-- connection_manager.go New: clamps maxConnectionAge up to minConnectionAge
and allocates an empty Connection keyed by the target address. The logger
toggle only enables log output and is not modelled. -/
def New (serviceAddress : String) (maxConnectionAge maxRetries : Nat) : ConnectionManager :=
  let maxConnectionAge :=
    if maxConnectionAge < minConnectionAge then minConnectionAge else maxConnectionAge
  { serviceAddress := serviceAddress
    maxConnectionAge := maxConnectionAge
    maxRetries := maxRetries
    connection1 := NewConnection serviceAddress }

/-- connection_manager.go connect: ask grpc.NewClient for a channel (the dial
outcome is the parameter); on error return it with nothing mutated, on
success SetConnection the new handle with the manager maxConnectionAge.
Result: new manager state, deferred close event if a handle was superseded,
and the error, in that order. -/
def ConnectionManager.connect (cm : ConnectionManager) (dial : Except Nat Handle) (now : Nat) :
    ConnectionManager × Option DeferredClose × Option Nat :=
  match dial with
  | .error e => (cm, none, some e)
  | .ok conn =>
    let r := cm.connection1.SetConnection conn cm.maxConnectionAge now
    ({ cm with connection1 := r.1 }, r.2, none)

/-- connection_manager.go Close: closes connection1 synchronously; panics
(none) when no handle is held. -/
def ConnectionManager.Close (cm : ConnectionManager) : Option ConnectionManager :=
  (cm.connection1.Close).map fun c1 => { cm with connection1 := c1 }

/-- connection_manager.go GetConnection: reconnect first when the held
connection reports expired, then return the current handle together with the
error of the reconnection, if any. Result order: new manager state, deferred
close event, returned handle, returned error. -/
def ConnectionManager.GetConnection (cm : ConnectionManager) (dial : Except Nat Handle)
    (now : Nat) : ConnectionManager × Option DeferredClose × Option Handle × Option Nat :=
  if cm.connection1.IsExpired now then
    let r := cm.connect dial now
    (r.1, r.2.1, r.1.connection1.connection, r.2.2)
  else
    (cm, none, cm.connection1.connection, none)

/-- connection_manager.go TryReconnect: reconnect only when at least
minConnectionAge has elapsed since lastConnection. In the Go source the early
return inside the error branch returns exactly the same pair as the final
return statement, so the two paths coincide and are written as one here. -/
def ConnectionManager.TryReconnect (cm : ConnectionManager) (dial : Except Nat Handle)
    (now : Nat) : ConnectionManager × Option DeferredClose × Option Handle × Option Nat :=
  if now - cm.connection1.lastConnection ≥ minConnectionAge then
    let r := cm.connect dial now
    (r.1, r.2.1, r.1.connection1.connection, r.2.2)
  else
    (cm, none, cm.connection1.connection, none)

/-- connection_manager.go ShouldReconnect. -/
def ConnectionManager.ShouldReconnect (cm : ConnectionManager) (now : Nat) : Bool :=
  cm.connection1.IsExpired now

/-- connection_manager.go backoffDuration: 100ms * 2^attempt. Go computes the
product in float64, which is exact for every attempt below 27. -/
def ConnectionManager.backoffDuration (_cm : ConnectionManager) (attempt : Nat) : Nat :=
  (100 * millisecond) * 2 ^ attempt

/-- The gRPC status codes that interceptors.go distinguishes:
DeadlineExceeded, Unavailable, and everything else by numeric code. -/
inductive Code where
  | deadlineExceeded
  | unavailable
  | other (n : Nat)
  deriving DecidableEq, Repr

/-- An error value a call can end with: the context error from ctx.Err(), a
status error carrying a code, or a dial error from TryReconnect (the loop
never actually returns one, see the C9 theorems). -/
inductive GoErr where
  | ctx
  | rpc (c : Code)
  | dial (n : Nat)
  deriving DecidableEq, Repr

/-- interceptors.go transient check: status.Code(err) == codes.DeadlineExceeded
|| status.Code(err) == codes.Unavailable. -/
def transientCode (c : Code) : Bool :=
  c == Code.deadlineExceeded || c == Code.unavailable

/-- Oracles describing one call as the interceptor experiences it.
invoke i h is the result of the invoker at loop iteration i against handle h
(none is success). doneAtHead i: the ctx.Done channel is already closed when
iteration i starts. doneInBackoff i: ctx.Done fires before the backoff timer
of iteration i. reconnect i: handle and error returned by cm.TryReconnect()
at iteration i. -/
structure CallEnv where
  maxRetries : Nat
  invoke : Nat → Handle → Option Code
  doneAtHead : Nat → Bool
  doneInBackoff : Nat → Bool
  reconnect : Nat → Option Handle × Option Nat

/-- interceptors.go retryInterceptor loop body, structurally recursive on
remaining = maxRetries - attempt. Returns the Go return value (none is a nil
error) and the trace of invocations as (attempt, handle) pairs. Two source
details are kept exactly as written: newConn is declared nil afresh inside
every iteration, so the invoker always runs against cc and the TryReconnect
results are dropped when the iteration ends; and the final break statement
only leaves the enclosing select, so a non transient error does not leave the
for loop. -/
def retryLoop (env : CallEnv) (cc : Handle) :
    Nat → Nat → Option Code → Option GoErr × List (Nat × Handle)
  | 0, _, err => (err.map GoErr.rpc, [])
  | remaining + 1, attempt, _err =>
    if env.doneAtHead attempt then
      (some GoErr.ctx, [])
    else
      let newConn : Option Handle := none
      let used : Handle :=
        match newConn with
        | none => cc
        | some h => h
      match env.invoke attempt used with
      | none => (none, [(attempt, used)])
      | some c =>
        if transientCode c then
          if env.doneInBackoff attempt then
            (some GoErr.ctx, [(attempt, used)])
          else
            let _newConn := env.reconnect attempt
            let rest := retryLoop env cc remaining (attempt + 1) (some c)
            (rest.1, (attempt, used) :: rest.2)
        else
          let rest := retryLoop env cc remaining (attempt + 1) (some c)
          (rest.1, (attempt, used) :: rest.2)

/-- interceptors.go retryInterceptor: run the loop with the full budget,
starting from attempt 0 with err nil, against the handle the call was issued
on. -/
def retryInterceptor (env : CallEnv) (cc : Handle) : Option GoErr × List (Nat × Handle) :=
  retryLoop env cc env.maxRetries 0 none

/-- The invoker at iteration i against cc fails with a transient code. -/
def transientFailAt (env : CallEnv) (cc : Handle) (i : Nat) : Bool :=
  match env.invoke i cc with
  | some c => transientCode c
  | none => false

/-- Iteration i runs to its end and loops: no cancellation at the head, a
transient invoker failure, no cancellation during the backoff wait. -/
def cleanStep (env : CallEnv) (cc : Handle) (i : Nat) : Bool :=
  !env.doneAtHead i && transientFailAt env cc i && !env.doneInBackoff i

theorem retryLoop_head_cancel (env : CallEnv) (cc : Handle) (r a : Nat) (e : Option Code)
    (hhead : env.doneAtHead a = true) :
    retryLoop env cc (r + 1) a e = (some GoErr.ctx, []) := by
  simp [retryLoop, hhead]

theorem retryLoop_success (env : CallEnv) (cc : Handle) (r a : Nat) (e : Option Code)
    (hhead : env.doneAtHead a = false) (hinv : env.invoke a cc = none) :
    retryLoop env cc (r + 1) a e = (none, [(a, cc)]) := by
  simp [retryLoop, hhead, hinv]

theorem retryLoop_backoff_cancel (env : CallEnv) (cc : Handle) (r a : Nat) (e : Option Code)
    (c : Code) (hhead : env.doneAtHead a = false) (hinv : env.invoke a cc = some c)
    (htr : transientCode c = true) (hback : env.doneInBackoff a = true) :
    retryLoop env cc (r + 1) a e = (some GoErr.ctx, [(a, cc)]) := by
  simp [retryLoop, hhead, hinv, htr, hback]

theorem retryLoop_clean (env : CallEnv) (cc : Handle) (r a : Nat) (e : Option Code)
    (c : Code) (hhead : env.doneAtHead a = false) (hinv : env.invoke a cc = some c)
    (htr : transientCode c = true) (hback : env.doneInBackoff a = false) :
    retryLoop env cc (r + 1) a e =
      ((retryLoop env cc r (a + 1) (some c)).1,
        (a, cc) :: (retryLoop env cc r (a + 1) (some c)).2) := by
  simp [retryLoop, hhead, hinv, htr, hback]

theorem retryLoop_nontransient (env : CallEnv) (cc : Handle) (r a : Nat) (e : Option Code)
    (c : Code) (hhead : env.doneAtHead a = false) (hinv : env.invoke a cc = some c)
    (htr : transientCode c = false) :
    retryLoop env cc (r + 1) a e =
      ((retryLoop env cc r (a + 1) (some c)).1,
        (a, cc) :: (retryLoop env cc r (a + 1) (some c)).2) := by
  simp [retryLoop, hhead, hinv, htr]

theorem transientFailAt_eq_some (env : CallEnv) (cc : Handle) (i : Nat) (c : Code)
    (h : env.invoke i cc = some c) : transientFailAt env cc i = transientCode c := by
  unfold transientFailAt
  rw [h]

theorem transientFailAt_eq_none (env : CallEnv) (cc : Handle) (i : Nat)
    (h : env.invoke i cc = none) : transientFailAt env cc i = false := by
  unfold transientFailAt
  rw [h]

theorem cleanStep_elim (env : CallEnv) (cc : Handle) (i : Nat)
    (h : cleanStep env cc i = true) :
    env.doneAtHead i = false ∧ env.doneInBackoff i = false ∧
      ∃ c, env.invoke i cc = some c ∧ transientCode c = true := by
  simp only [cleanStep, Bool.and_eq_true, Bool.not_eq_true'] at h
  obtain ⟨⟨h1, h2⟩, h3⟩ := h
  refine ⟨h1, h3, ?_⟩
  cases hinv : env.invoke i cc with
  | none =>
    rw [transientFailAt_eq_none env cc i hinv] at h2
    simp at h2
  | some c =>
    refine ⟨c, rfl, ?_⟩
    rwa [transientFailAt_eq_some env cc i c hinv] at h2

/-- In every run of the interceptor loop every invocation is issued against
the original handle cc: a handle produced by TryReconnect is never used,
because newConn is declared nil afresh on every iteration. -/
theorem retryLoop_handle_eq (env : CallEnv) (cc : Handle) :
    ∀ r a e p, p ∈ (retryLoop env cc r a e).2 → p.2 = cc := by
  intro r
  induction r with
  | zero =>
    intro a e p hp
    simp [retryLoop] at hp
  | succ r ih =>
    intro a e p hp
    by_cases hhead : env.doneAtHead a
    · rw [retryLoop_head_cancel env cc r a e hhead] at hp
      simp at hp
    · rw [Bool.not_eq_true] at hhead
      cases hinv : env.invoke a cc with
      | none =>
        rw [retryLoop_success env cc r a e hhead hinv] at hp
        simp at hp
        simp [hp]
      | some c =>
        by_cases htr : transientCode c
        · by_cases hback : env.doneInBackoff a
          · rw [retryLoop_backoff_cancel env cc r a e c hhead hinv htr hback] at hp
            simp at hp
            simp [hp]
          · rw [Bool.not_eq_true] at hback
            rw [retryLoop_clean env cc r a e c hhead hinv htr hback] at hp
            simp at hp
            rcases hp with hp | hp
            · simp [hp]
            · exact ih (a + 1) (some c) p hp
        · rw [Bool.not_eq_true] at htr
          rw [retryLoop_nontransient env cc r a e c hhead hinv htr] at hp
          simp at hp
          rcases hp with hp | hp
          · simp [hp]
          · exact ih (a + 1) (some c) p hp

/-- Failing input for C1: the call was issued on handle 1, every invocation
against handle 1 fails with Unavailable while an invocation against handle 7
would succeed, and TryReconnect hands back the new handle 7 at every
iteration. -/
def envC1 : CallEnv where
  maxRetries := 2
  invoke := fun _ h => if h == 7 then none else some Code.unavailable
  doneAtHead := fun _ => false
  doneInBackoff := fun _ => false
  reconnect := fun _ => (some 7, none)

/-- C1: the claim fails on the code. After the transient failure of attempt
0, TryReconnect yields the new handle 7, but newConn is declared nil afresh
at the top of every loop iteration, so the branch that would invoke against
newConn is unreachable: attempt 1 runs against the original handle 1 again
and the call ends with Unavailable instead of succeeding on handle 7. -/
theorem c1_reconnected_handle_never_used :
    retryInterceptor envC1 1 =
      (some (GoErr.rpc Code.unavailable), [(0, 1), (1, 1)]) := by decide

/-- Failing input for C5: every invocation fails with InvalidArgument (gRPC
code 3), a non transient code, and the budget maxRetries is 3. -/
def envC5 : CallEnv where
  maxRetries := 3
  invoke := fun _ _ => some (Code.other 3)
  doneAtHead := fun _ => false
  doneInBackoff := fun _ => false
  reconnect := fun _ => (none, none)

/-- C5: the claim fails on the code. The break after the non transient check
only leaves the enclosing select statement, not the for loop, so the call is
re-invoked on every iteration: three invocations for maxRetries = 3, with no
backoff in between, before the InvalidArgument error is returned. -/
theorem c5_nontransient_reinvoked :
    retryInterceptor envC5 1 =
      (some (GoErr.rpc (Code.other 3)), [(0, 1), (1, 1), (2, 1)]) := by decide

/-- Input for the C9 counterexample: every invocation fails Unavailable and
TryReconnect fails with dial error 99 at every iteration, in particular at
the final attempt. -/
def envC9 : CallEnv where
  maxRetries := 2
  invoke := fun _ _ => some Code.unavailable
  doneAtHead := fun _ => false
  doneInBackoff := fun _ => false
  reconnect := fun _ => (none, some 99)

/-- C9 counterexample: with a reconnection failure on the final attempt the
call still terminates with the Unavailable error of the last invocation; the
reconnection error 99 is not propagated as the terminal error, contrary to
the exception clause of the claim. -/
theorem c9_counterexample :
    (retryInterceptor envC9 1).1 = some (GoErr.rpc Code.unavailable) ∧
    (retryInterceptor envC9 1).1 ≠ some (GoErr.dial 99) := by decide

/-- C9 (amended): the TryReconnect results, handle and error alike, are bound
to a variable whose scope ends with the iteration, so the loop result and the
invocation trace are the same whatever reconnect returns: a reconnection
failure never aborts the retry loop and is never surfaced to the caller, not
even when it occurs on the final attempt. -/
theorem c9_reconnect_error_invisible (env : CallEnv)
    (rec2 : Nat → Option Handle × Option Nat) (cc : Handle) :
    retryInterceptor { env with reconnect := rec2 } cc = retryInterceptor env cc := by
  have key : ∀ r a e,
      retryLoop { env with reconnect := rec2 } cc r a e = retryLoop env cc r a e := by
    intro r
    induction r with
    | zero => intro a e; rfl
    | succ r ih =>
      intro a e
      simp only [retryLoop, ih]
  exact key env.maxRetries 0 none

theorem retryLoop_all_transient (env : CallEnv) (cc : Handle) (e : Nat → Code)
    (hinv : ∀ i h, env.invoke i h = some (e i))
    (htr : ∀ i, transientCode (e i) = true)
    (hhead : ∀ i, env.doneAtHead i = false)
    (hback : ∀ i, env.doneInBackoff i = false) :
    ∀ r a einit,
      (retryLoop env cc (r + 1) a einit).1 = some (GoErr.rpc (e (a + r))) ∧
      (retryLoop env cc (r + 1) a einit).2.length = r + 1 := by
  intro r
  induction r with
  | zero =>
    intro a einit
    rw [retryLoop_clean env cc 0 a einit (e a) (hhead a) (hinv a cc) (htr a) (hback a)]
    simp [retryLoop]
  | succ r ih =>
    intro a einit
    rw [retryLoop_clean env cc (r + 1) a einit (e a) (hhead a) (hinv a cc) (htr a) (hback a)]
    have h1 := ih (a + 1) (some (e a))
    have hidx : a + 1 + r = a + (r + 1) := by omega
    rw [hidx] at h1
    exact ⟨h1.1, by simp [h1.2]⟩

/-- C2: when every invocation of a call fails with a transient code
(DeadlineExceeded or Unavailable) and the cancellation signal never triggers,
the interceptor invokes the underlying call exactly maxRetries times, not
maxRetries + 1, and returns the status error observed on the last invocation
rather than a synthesized retries-exhausted error. -/
theorem c2_retry_bound (env : CallEnv) (cc : Handle) (e : Nat → Code)
    (hinv : ∀ i h, env.invoke i h = some (e i))
    (htr : ∀ i, transientCode (e i) = true)
    (hhead : ∀ i, env.doneAtHead i = false)
    (hback : ∀ i, env.doneInBackoff i = false)
    (hpos : 1 ≤ env.maxRetries) :
    (retryInterceptor env cc).1 = some (GoErr.rpc (e (env.maxRetries - 1))) ∧
    (retryInterceptor env cc).2.length = env.maxRetries := by
  have h := retryLoop_all_transient env cc e hinv htr hhead hback (env.maxRetries - 1) 0 none
  have hR : env.maxRetries - 1 + 1 = env.maxRetries := by omega
  rw [hR] at h
  simpa [retryInterceptor] using h

/-- Witness input for C2: budget 3, every invocation fails Unavailable, no
cancellation. -/
def envC2 : CallEnv where
  maxRetries := 3
  invoke := fun _ _ => some Code.unavailable
  doneAtHead := fun _ => false
  doneInBackoff := fun _ => false
  reconnect := fun _ => (none, none)

theorem c2_retry_bound_witness :
    (retryInterceptor envC2 1).1 = some (GoErr.rpc Code.unavailable) ∧
    (retryInterceptor envC2 1).2.length = 3 :=
  c2_retry_bound envC2 1 (fun _ => Code.unavailable)
    (fun _ _ => rfl) (fun _ => rfl) (fun _ => rfl) (fun _ => rfl) (by decide)

theorem retryLoop_cancel_general (env : CallEnv) (cc : Handle) :
    ∀ k a r einit,
      (∀ i, i < k → cleanStep env cc (a + i) = true) →
      ((env.doneAtHead (a + k) = true →
          (retryLoop env cc (k + (r + 1)) a einit).1 = some GoErr.ctx ∧
          (retryLoop env cc (k + (r + 1)) a einit).2.length = k) ∧
       (env.doneAtHead (a + k) = false → transientFailAt env cc (a + k) = true →
          env.doneInBackoff (a + k) = true →
          (retryLoop env cc (k + (r + 1)) a einit).1 = some GoErr.ctx ∧
          (retryLoop env cc (k + (r + 1)) a einit).2.length = k + 1)) := by
  intro k
  induction k with
  | zero =>
    intro a r einit _
    constructor
    · intro hhead
      rw [Nat.add_zero] at hhead
      rw [Nat.zero_add, retryLoop_head_cancel env cc r a einit hhead]
      exact ⟨rfl, rfl⟩
    · intro hh ht hb
      rw [Nat.add_zero] at hh ht hb
      cases hinv : env.invoke a cc with
      | none =>
        rw [transientFailAt_eq_none env cc a hinv] at ht
        simp at ht
      | some c =>
        rw [transientFailAt_eq_some env cc a c hinv] at ht
        rw [Nat.zero_add, retryLoop_backoff_cancel env cc r a einit c hh hinv ht hb]
        exact ⟨rfl, rfl⟩
  | succ k ih =>
    intro a r einit hpre
    have hstep := hpre 0 (by omega)
    rw [Nat.add_zero] at hstep
    obtain ⟨hhead0, hback0, c, hinv0, htr0⟩ := cleanStep_elim env cc a hstep
    have hpre2 : ∀ i, i < k → cleanStep env cc (a + 1 + i) = true := by
      intro i hi
      have h2 := hpre (i + 1) (by omega)
      have hidx : a + (i + 1) = a + 1 + i := by omega
      rwa [hidx] at h2
    have ih2 := ih (a + 1) r (some c) hpre2
    have hn : k + 1 + (r + 1) = (k + (r + 1)) + 1 := by omega
    have heq := retryLoop_clean env cc (k + (r + 1)) a einit c hhead0 hinv0 htr0 hback0
    have hidx2 : a + (k + 1) = a + 1 + k := by omega
    constructor
    · intro hhead
      rw [hidx2] at hhead
      have res := ih2.1 hhead
      rw [hn, heq]
      exact ⟨res.1, by simp [res.2]⟩
    · intro hh ht hb
      rw [hidx2] at hh ht hb
      have res := ih2.2 hh ht hb
      rw [hn, heq]
      refine ⟨res.1, by simp [res.2]⟩

/-- C4: cancellation preemption. First scenario (env, cc, k): the first k
iterations fail transiently and loop, and at the head of iteration k the
cancellation signal is already triggered; the interceptor returns the
context error and performs no invocation at iteration k. Second scenario
(env2, cc2, k2): the first k2 iterations fail transiently and loop, and at
iteration k2 the invocation fails transiently and the cancellation signal
triggers during the backoff wait; the interceptor returns the context error,
not the prior transient error, and performs no further invocations. -/
theorem c4_cancellation_preemption (env env2 : CallEnv) (cc cc2 : Handle) (k k2 : Nat)
    (hk : k < env.maxRetries)
    (hpre : ∀ i, i < k → cleanStep env cc i = true)
    (hhead : env.doneAtHead k = true)
    (hk2 : k2 < env2.maxRetries)
    (hpre2 : ∀ i, i < k2 → cleanStep env2 cc2 i = true)
    (hh2 : env2.doneAtHead k2 = false)
    (ht2 : transientFailAt env2 cc2 k2 = true)
    (hb2 : env2.doneInBackoff k2 = true) :
    (retryInterceptor env cc).1 = some GoErr.ctx ∧
    (retryInterceptor env cc).2.length = k ∧
    (retryInterceptor env2 cc2).1 = some GoErr.ctx ∧
    (retryInterceptor env2 cc2).2.length = k2 + 1 := by
  have hpre0 : ∀ i, i < k → cleanStep env cc (0 + i) = true := by
    intro i hi
    rw [Nat.zero_add]
    exact hpre i hi
  have hpre02 : ∀ i, i < k2 → cleanStep env2 cc2 (0 + i) = true := by
    intro i hi
    rw [Nat.zero_add]
    exact hpre2 i hi
  have hA := (retryLoop_cancel_general env cc k 0 (env.maxRetries - k - 1) none hpre0).1
    (by rwa [Nat.zero_add])
  have hB := (retryLoop_cancel_general env2 cc2 k2 0 (env2.maxRetries - k2 - 1) none hpre02).2
    (by rwa [Nat.zero_add]) (by rwa [Nat.zero_add]) (by rwa [Nat.zero_add])
  have hR : k + (env.maxRetries - k - 1 + 1) = env.maxRetries := by omega
  have hR2 : k2 + (env2.maxRetries - k2 - 1 + 1) = env2.maxRetries := by omega
  rw [hR] at hA
  rw [hR2] at hB
  exact ⟨hA.1, hA.2, hB.1, hB.2⟩

/-- Witness input for the first C4 scenario: budget 3, every invocation fails
DeadlineExceeded, the context is done at the head of iteration 1. -/
def envC4a : CallEnv where
  maxRetries := 3
  invoke := fun _ _ => some Code.deadlineExceeded
  doneAtHead := fun i => i == 1
  doneInBackoff := fun _ => false
  reconnect := fun _ => (none, none)

/-- Witness input for the second C4 scenario: budget 3, every invocation
fails Unavailable, the context fires during the backoff wait of iteration 1. -/
def envC4b : CallEnv where
  maxRetries := 3
  invoke := fun _ _ => some Code.unavailable
  doneAtHead := fun _ => false
  doneInBackoff := fun i => i == 1
  reconnect := fun _ => (none, none)

theorem c4_cancellation_preemption_witness :
    (retryInterceptor envC4a 1).1 = some GoErr.ctx ∧
    (retryInterceptor envC4a 1).2.length = 1 ∧
    (retryInterceptor envC4b 1).1 = some GoErr.ctx ∧
    (retryInterceptor envC4b 1).2.length = 2 :=
  c4_cancellation_preemption envC4a envC4b 1 1 1 1
    (by decide) (by decide) (by decide) (by decide)
    (by decide) (by decide) (by decide) (by decide)

theorem setConnection_fst (c : Connection) (h : Handle) (maxAge now : Nat) :
    (c.SetConnection h maxAge now).1 =
      { c with connection := some h, lastConnection := now, maxDuration := maxAge } := by
  cases hc : c.connection <;> simp [Connection.SetConnection, hc]

/-- C3: after swap(h1) then swap(h2) at time t2, the swap does not close h1
itself: it stays stored nowhere but in the deferred close event of the
detached goroutine, the new state holds h2, the event is scheduled at
t2 + gracePeriod, and the deferred close cannot run at any instant earlier
than t2 + gracePeriod, gracePeriod being the fixed 10 seconds. -/
theorem c3_grace_period (c : Connection) (h1 h2 : Handle) (a1 a2 t1 t2 t : Nat)
    (ht : t < t2 + gracePeriod) :
    ((c.SetConnection h1 a1 t1).1.SetConnection h2 a2 t2).2 =
      some { handle := h1, scheduledAt := t2 + gracePeriod } ∧
    ((c.SetConnection h1 a1 t1).1.SetConnection h2 a2 t2).1.connection = some h2 ∧
    DeferredClose.runsAt { handle := h1, scheduledAt := t2 + gracePeriod } t = false := by
  rw [setConnection_fst]
  refine ⟨?_, ?_, ?_⟩
  · simp [Connection.SetConnection]
  · rw [setConnection_fst]
  · simp only [DeferredClose.runsAt, decide_eq_false_iff_not]
    omega

theorem c3_grace_period_witness :
    (((NewConnection "a").SetConnection 1 (20 * second) 0).1.SetConnection 2
        (20 * second) 5).2 = some { handle := 1, scheduledAt := 5 + gracePeriod } ∧
    (((NewConnection "a").SetConnection 1 (20 * second) 0).1.SetConnection 2
        (20 * second) 5).1.connection = some 2 ∧
    DeferredClose.runsAt { handle := 1, scheduledAt := 5 + gracePeriod } 5 = false :=
  c3_grace_period (NewConnection "a") 1 2 (20 * second) (20 * second) 0 5 5 (by decide)

/-- C6: when less than minConnectionAge has elapsed since lastConnection,
TryReconnect establishes nothing and returns the held handle with the state
untouched; consequently a second TryReconnect inside the same window returns
the very same handle again. -/
theorem c6_tryReconnect_throttled (cm : ConnectionManager) (dial dial2 : Except Nat Handle)
    (now now2 : Nat)
    (h : now - cm.connection1.lastConnection < minConnectionAge)
    (h2 : now2 - cm.connection1.lastConnection < minConnectionAge) :
    cm.TryReconnect dial now = (cm, none, cm.connection1.connection, none) ∧
    ((cm.TryReconnect dial now).1.TryReconnect dial2 now2) =
      (cm, none, cm.connection1.connection, none) := by
  have e1 : cm.TryReconnect dial now = (cm, none, cm.connection1.connection, none) := by
    unfold ConnectionManager.TryReconnect
    rw [if_neg (by omega)]
  refine ⟨e1, ?_⟩
  rw [e1]
  show cm.TryReconnect dial2 now2 = (cm, none, cm.connection1.connection, none)
  unfold ConnectionManager.TryReconnect
  rw [if_neg (by omega)]

/-- Witness state for C6: a manager that connected successfully at time 0. -/
def cmW : ConnectionManager := ((New "a" (20 * second) 3).connect (Except.ok 5) 0).1

theorem c6_tryReconnect_throttled_witness :
    cmW.TryReconnect (Except.ok 9) second = (cmW, none, cmW.connection1.connection, none) ∧
    ((cmW.TryReconnect (Except.ok 9) second).1.TryReconnect (Except.error 7) (2 * second)) =
      (cmW, none, cmW.connection1.connection, none) :=
  c6_tryReconnect_throttled cmW (Except.ok 9) (Except.error 7) second (2 * second)
    (by decide) (by decide)

/-- C7: IsExpired holds exactly when now - lastConnection has reached
maxDuration; it is false at the instant of a successful swap with a positive
maxAge, becomes true at every instant from now + maxAge on, and before the
first swap a fresh Connection reports expired at every instant. -/
theorem c7_isExpired (c : Connection) (idS : String) (h : Handle)
    (maxAge t now later : Nat) (hpos : 0 < maxAge) (hlater : now + maxAge ≤ later) :
    (c.IsExpired t = true ↔ t - c.lastConnection ≥ c.maxDuration) ∧
    (c.SetConnection h maxAge now).1.IsExpired now = false ∧
    (c.SetConnection h maxAge now).1.IsExpired later = true ∧
    (NewConnection idS).IsExpired t = true := by
  refine ⟨?_, ?_, ?_, ?_⟩
  · simp [Connection.IsExpired]
  · rw [setConnection_fst]
    simp only [Connection.IsExpired, decide_eq_false_iff_not]
    omega
  · rw [setConnection_fst]
    simp only [Connection.IsExpired, decide_eq_true_eq]
    omega
  · simp only [NewConnection, Connection.IsExpired, decide_eq_true_eq]
    omega

theorem c7_isExpired_witness :
    ((NewConnection "a").IsExpired 0 = true ↔
        0 - (NewConnection "a").lastConnection ≥ (NewConnection "a").maxDuration) ∧
    ((NewConnection "a").SetConnection 1 second 5).1.IsExpired 5 = false ∧
    ((NewConnection "a").SetConnection 1 second 5).1.IsExpired (5 + second) = true ∧
    (NewConnection "b").IsExpired 0 = true :=
  c7_isExpired (NewConnection "a") "b" 1 second 0 5 (5 + second) (by decide) (by decide)

/-- C8: when channel establishment fails, connect returns the dial error with
the manager state untouched, and GetConnection on an expired connection
surfaces that error to its caller while still returning the previously held
handle; lastConnection and maxDuration are unchanged because the whole state
is unchanged. -/
theorem c8_establish_failure (cm : ConnectionManager) (e : Nat) (now : Nat)
    (hexp : cm.connection1.IsExpired now = true) :
    cm.connect (Except.error e) now = (cm, none, some e) ∧
    cm.GetConnection (Except.error e) now =
      (cm, none, cm.connection1.connection, some e) := by
  refine ⟨rfl, ?_⟩
  simp [ConnectionManager.GetConnection, ConnectionManager.connect, hexp]

theorem c8_establish_failure_witness :
    (New "a" second 3).connect (Except.error 42) 7 = (New "a" second 3, none, some 42) ∧
    (New "a" second 3).GetConnection (Except.error 42) 7 =
      (New "a" second 3, none, (New "a" second 3).connection1.connection, some 42) :=
  c8_establish_failure (New "a" second 3) 42 7 (by decide)

/-- C10: Connection.Close, and with it ConnectionManager.Close, panics
(returns none) whenever no handle is held: on a fresh Connection, on a
freshly constructed manager before any successful swap, and a second time
after a previous Close already cleared the handle; it succeeds exactly under
the precondition that a non-nil handle is currently held. -/
theorem c10_close_requires_handle (idS addr : String) (age retries : Nat)
    (c : Connection) (h : Handle) (hheld : c.connection = some h) :
    (NewConnection idS).Close = none ∧
    (New addr age retries).Close = none ∧
    c.Close = some { c with connection := none } ∧
    Connection.Close { c with connection := none } = none := by
  refine ⟨rfl, rfl, ?_, rfl⟩
  simp [Connection.Close, hheld]

theorem c10_close_requires_handle_witness :
    (NewConnection "x").Close = none ∧
    (New "y" 5 3).Close = none ∧
    Connection.Close ((NewConnection "x").SetConnection 5 20 0).1 =
      some { ((NewConnection "x").SetConnection 5 20 0).1 with connection := none } ∧
    Connection.Close
      { ((NewConnection "x").SetConnection 5 20 0).1 with connection := none } = none :=
  c10_close_requires_handle "x" "y" 5 3 ((NewConnection "x").SetConnection 5 20 0).1 5
    (by decide)

end Glink
